import Mathlib

/-!
# Hornet: INX milestone server and the legacy `getBalances` endpoint

A shallow embedding of

* `plugins/inx/server_milestones.go`: `milestoneForCachedMilestone`,
  `milestoneForIndex`, `ReadMilestone`, the two milestone listeners and
  `ComputeWhiteFlag`;
* `plugins/webapi/balances.go`: `getBalances`.

Go values are modelled as follows.

* A Go pointer that may be nil is an `Option`.
* A Go function returning `(T, error)` returns a pair of options, so that
  "a value and no error" is a property to be proved, not one of the type.
* A Go call either returns or panics (`Outcome`); deferred calls run on both.
* Reference counts are integers held in the storage state, and every
  acquisition, retain and release is also appended to a trace.
* Unsigned 32 bit conversions are written out as `% 2 ^ 32`.
-/

namespace Hornet

/-! ## Errors and gRPC statuses -/

/-- The gRPC status codes used by the INX server (`google.golang.org/grpc/codes`). -/
inductive Code
  | NotFound
  | InvalidArgument
  | Unavailable
  | Internal
  deriving DecidableEq, Repr

/-- Go error values created outside the INX plugin: the four sentinels the
white-flag switch tests for, `context.Canceled`, any other leaf error, and the
two ways of building an error around others (a wrapper with one inner error,
and an error that unwraps to two). -/
inductive BaseError
  | ErrNodeNotSynced
  | ErrParentsNotGiven
  | ErrParentsNotSolid
  | ErrOperationAborted
  | Canceled
  | plain (msg : String)
  | wrap (msg : String) (inner : BaseError)
  | join (left right : BaseError)
  deriving DecidableEq, Repr

/-- The function `errors.Is`: the error itself or anything reachable from it
by unwrapping equals the target. -/
def errorsIs : BaseError → BaseError → Bool
  | .wrap msg inner, target => decide (BaseError.wrap msg inner = target) || errorsIs inner target
  | .join l r, target =>
      decide (BaseError.join l r = target) || errorsIs l target || errorsIs r target
  | e, target => decide (e = target)

/-- One argument of a `status.Errorf` call. -/
inductive Arg
  | num (n : Nat)
  | text (s : String)
  | err (e : BaseError)
  deriving DecidableEq, Repr

/-- A gRPC status as built by `status.Errorf(code, format, args...)`. -/
structure Status where
  code : Code
  format : String
  args : List Arg
  deriving DecidableEq, Repr

/-- A value of Go's `error` interface as seen by an RPC handler. -/
inductive GoError
  | status (s : Status)
  | base (e : BaseError)
  deriving DecidableEq, Repr

/-- A Go call returns a value or panics. -/
inductive Outcome (α : Type)
  | returned (val : α)
  | panicked
  deriving DecidableEq, Repr

/-! ## Data model -/

/-- A stored milestone: `storage.Milestone`. `Index` is a `uint32`,
`Timestamp` is kept as its Unix seconds (`int64`). -/
structure Milestone where
  Index : Nat
  MessageID : Nat
  Timestamp : Int
  deriving DecidableEq, Repr

/-- The milestone payload of a message (`iotago.Milestone`), kept as its content. -/
structure MilestonePayload where
  content : List Nat
  deriving DecidableEq, Repr

/-- A stored message. `Milestone` is what `Message().Milestone()` returns:
nil when the message carries no milestone payload. -/
structure Message where
  Milestone : Option MilestonePayload
  deriving DecidableEq, Repr

/-- A handle on a cached milestone: the key of the cache entry whose reference
count it holds, and the object cached there. -/
structure CachedMilestone where
  key : Nat
  obj : Milestone
  deriving DecidableEq, Repr

/-- A handle on a cached message: the id of the cache entry and the object. -/
structure CachedMessage where
  id : Nat
  obj : Message
  deriving DecidableEq, Repr

/-- The pointer returned by `ms.Milestone()`: the cached object, never nil. -/
def CachedMilestone.Milestone (ms : CachedMilestone) : Option Milestone := some ms.obj

/-- The message behind a handle: `milestoneMsg.Message()`. -/
def CachedMessage.Message (m : CachedMessage) : Message := m.obj

/-- Serialization modes of `serializer.DeSerializationMode`. -/
inductive DeSeriMode
  | NoValidation
  | PerformValidation
  | PerformLexicalOrdering
  deriving DecidableEq, Repr

/-- What is recorded of a run: reference count traffic and calls made on a
milestone payload pointer. -/
inductive Event
  | milestoneAcquire (key : Nat)
  | milestoneRetain (key : Nat)
  | milestoneRelease (key : Nat)
  | messageAcquire (id : Nat)
  | messageRelease (id : Nat)
  | payloadID (p : Option MilestonePayload)
  | payloadSerialize (p : Option MilestonePayload) (mode : DeSeriMode)
  deriving DecidableEq, Repr

/-- The result of a library call of type `(T, error)`: a value with a nil
error, an error, or a panic. -/
inductive Call (α : Type)
  | value (a : α)
  | failure (e : BaseError)
  | panics
  deriving DecidableEq, Repr

/-- The two `iotago.Milestone` methods the server calls. Both take the
receiver pointer, which may be nil. -/
structure Lib where
  ID : Option MilestonePayload → Call (List Nat)
  Serialize : Option MilestonePayload → DeSeriMode → Call (List Nat)

/-- The object storage: what is persisted, the reference count of every
cache entry of a milestone (by index) and of a message (by id), and the trace
so far. -/
structure Storage where
  milestones : Nat → Option Milestone
  messages : Nat → Option Message
  milestoneRefs : Nat → Int
  messageRefs : Nat → Int
  trace : List Event

/-- Modelled from the spec: `acquireMilestone(index)` of the cached object
store (`deps.Storage.CachedMilestoneOrNil`, milestone +1), which returns nil
and leaves the count alone when no milestone has that index. -/
def Storage.CachedMilestoneOrNil (st : Storage) (msIndex : Nat) :
    Option CachedMilestone × Storage :=
  match st.milestones msIndex with
  | none => (none, st)
  | some m =>
      (some ⟨msIndex, m⟩,
        { st with
          milestoneRefs := Function.update st.milestoneRefs msIndex (st.milestoneRefs msIndex + 1)
          trace := st.trace ++ [Event.milestoneAcquire msIndex] })

/-- Modelled from the spec: `acquireMessage(id)` of the cached object store
(`deps.Storage.CachedMessageOrNil`, message +1), nil when absent. -/
def Storage.CachedMessageOrNil (st : Storage) (messageID : Nat) :
    Option CachedMessage × Storage :=
  match st.messages messageID with
  | none => (none, st)
  | some m =>
      (some ⟨messageID, m⟩,
        { st with
          messageRefs := Function.update st.messageRefs messageID (st.messageRefs messageID + 1)
          trace := st.trace ++ [Event.messageAcquire messageID] })

/-- Modelled from the spec: `retain(handle)`, count +1, a new handle on the
same object. -/
def CachedMilestone.Retain (ms : CachedMilestone) (st : Storage) : CachedMilestone × Storage :=
  (ms,
    { st with
      milestoneRefs := Function.update st.milestoneRefs ms.key (st.milestoneRefs ms.key + 1)
      trace := st.trace ++ [Event.milestoneRetain ms.key] })

/-- Modelled from the spec: `release(handle)` on a milestone handle, count -1. -/
def CachedMilestone.Release (ms : CachedMilestone) (st : Storage) : Storage :=
  { st with
    milestoneRefs := Function.update st.milestoneRefs ms.key (st.milestoneRefs ms.key - 1)
    trace := st.trace ++ [Event.milestoneRelease ms.key] }

/-- Modelled from the spec: `release(handle)` on a message handle, count -1. -/
def CachedMessage.Release (m : CachedMessage) (st : Storage) : Storage :=
  { st with
    messageRefs := Function.update st.messageRefs m.id (st.messageRefs m.id - 1)
    trace := st.trace ++ [Event.messageRelease m.id] }

/-- Appends a library call to the trace. -/
def Storage.record (st : Storage) (e : Event) : Storage :=
  { st with trace := st.trace ++ [e] }

/-! ## The INX wire types -/

/-- The type `inx.MilestoneInfo`. -/
structure MilestoneInfo where
  MilestoneId : List Nat
  MilestoneIndex : Nat
  MilestoneTimestamp : Nat
  deriving DecidableEq, Repr

/-- The type `inx.RawMilestone`. -/
structure RawMilestone where
  Data : List Nat
  deriving DecidableEq, Repr

/-- The type `inx.Milestone`. -/
structure InxMilestone where
  MilestoneInfo : MilestoneInfo
  Milestone : RawMilestone
  deriving DecidableEq, Repr

/-- The conversion `uint32(x)` of an unsigned value. -/
def uint32OfNat (n : Nat) : Nat := n % 2 ^ 32

/-- The conversion `uint32(x)` of an `int64`: the low 32 bits. -/
def uint32OfInt (x : Int) : Nat := (x % 2 ^ 32).toNat

/-- The constructor `inx.NewMilestoneInfo(id, index, timestamp)`. -/
def NewMilestoneInfo (id : List Nat) (index timestamp : Nat) : MilestoneInfo :=
  { MilestoneId := id, MilestoneIndex := index, MilestoneTimestamp := timestamp }

/-! ## `milestoneForCachedMilestone` and `milestoneForIndex` -/

/-- The Go result pair `(*inx.Milestone, error)`. -/
abbrev MilestoneResult := Option InxMilestone × Option GoError

/-- The function `milestoneForCachedMilestone` (server_milestones.go, lines 21 to 52).
The two deferred releases are applied, last first, at every exit, a panic
included. The guard of line 33 tests `milestone`, the pointer already
dereferenced on line 26, as the source does. -/
def milestoneForCachedMilestone (lib : Lib) (ms : CachedMilestone) (st : Storage) :
    Outcome MilestoneResult × Storage :=
  -- defer ms.Release(true)
  let milestone := ms.Milestone
  match milestone with
  | none => (.panicked, ms.Release st)
  | some m =>
    match st.CachedMessageOrNil m.MessageID with
    | (none, st1) =>
        (.returned (none, some (.status
            ⟨.NotFound, "milestone message for %d not found", [.num m.Index]⟩)),
          ms.Release st1)
    | (some milestoneMsg, st1) =>
      -- defer milestoneMsg.Release(true)
      let milestonePayload := milestoneMsg.Message.Milestone
      if milestone = none then
        match milestone with
        | none => (.panicked, ms.Release (milestoneMsg.Release st1))
        | some m34 =>
            (.returned (none, some (.status
                ⟨.Internal, "milestone message for %d does not contain a milestone",
                  [.num m34.Index]⟩)),
              ms.Release (milestoneMsg.Release st1))
      else
        let st2 := st1.record (.payloadID milestonePayload)
        match lib.ID milestonePayload with
        | .panics => (.panicked, ms.Release (milestoneMsg.Release st2))
        | .failure err =>
            (.returned (none, some (.status
                ⟨.Internal, "error computing milestone ID: %s", [.err err]⟩)),
              ms.Release (milestoneMsg.Release st2))
        | .value milestoneID =>
          let st3 := st2.record (.payloadSerialize milestonePayload .NoValidation)
          match lib.Serialize milestonePayload .NoValidation with
          | .panics => (.panicked, ms.Release (milestoneMsg.Release st3))
          | .failure err =>
              (.returned (none, some (.status
                  ⟨.Internal, "error serializing milestone payload: %s", [.err err]⟩)),
                ms.Release (milestoneMsg.Release st3))
          | .value bytes =>
              (.returned
                  (some
                    { MilestoneInfo :=
                        NewMilestoneInfo milestoneID (uint32OfNat m.Index)
                          (uint32OfInt m.Timestamp)
                      Milestone := { Data := bytes } },
                    none),
                ms.Release (milestoneMsg.Release st3))

/-- The function `milestoneForIndex` (server_milestones.go, lines 54 to 62). -/
def milestoneForIndex (lib : Lib) (msIndex : Nat) (st : Storage) :
    Outcome MilestoneResult × Storage :=
  match st.CachedMilestoneOrNil msIndex with
  | (none, st1) =>
      (.returned (none, some (.status ⟨.NotFound, "milestone %d not found", [.num msIndex]⟩)),
        st1)
  | (some cachedMilestone, st1) =>
    -- defer cachedMilestone.Release(true)
    let (retained, st2) := cachedMilestone.Retain st1
    let (r, st3) := milestoneForCachedMilestone lib retained st2
    (r, cachedMilestone.Release st3)

/-- The method `INXServer.ReadMilestone`: the request carries a `uint32` index. -/
def ReadMilestone (lib : Lib) (reqMilestoneIndex : Nat) (st : Storage) :
    Outcome MilestoneResult × Storage :=
  milestoneForIndex lib reqMilestoneIndex st

/-! ## The milestone listeners -/

/-- The outbound stream of a listener call. The result of `Send` may depend
on the calls made before (a client that goes away after some messages). -/
structure Stream where
  Send : List (Option InxMilestone) → Option InxMilestone → Option GoError

/-- The state of one listener call: how often `cancel` was called on its
context, the tasks submitted to its worker pool and not yet taken, the `Send`
calls made on its stream, and the lines logged with the error they print. -/
structure Session where
  cancelCalls : Nat
  queue : List CachedMilestone
  sends : List (Option InxMilestone)
  log : List (String × GoError)
  deriving DecidableEq, Repr

/-- A fresh session: `context.WithCancel(context.Background())`, an empty pool. -/
def Session.fresh : Session := { cancelCalls := 0, queue := [], sends := [], log := [] }

/-- The context is done once `cancel` was called. -/
def Session.done (s : Session) : Bool := decide (0 < s.cancelCalls)

/-- The value of `ctx.Err()`: nil while the context is live, `context.Canceled`
once it was cancelled. -/
def Session.ctxErr (s : Session) : Option GoError :=
  if s.done then some (.base .Canceled) else none

/-- The worker function of a listener (lines 70 to 84, and again 98 to 112 with
the same text): one task, taken from the pool, is handled. -/
def workerTask (lib : Lib) (srv : Stream) (cachedMilestone : CachedMilestone)
    (st : Storage) (s : Session) : Outcome Unit × Storage × Session :=
  -- defer cachedMilestone.Release(true)
  let (retained, st1) := cachedMilestone.Retain st
  match milestoneForCachedMilestone lib retained st1 with
  | (.panicked, st2) => (.panicked, cachedMilestone.Release st2, s)
  | (.returned (_, some err), st2) =>
      (.returned (), cachedMilestone.Release st2,
        { s with
          log := s.log ++ [("error creating milestone: %v", err)]
          cancelCalls := s.cancelCalls + 1 })
  | (.returned (payload, none), st2) =>
      match srv.Send s.sends payload with
      | some err =>
          (.returned (), cachedMilestone.Release st2,
            { s with
              sends := s.sends ++ [payload]
              log := s.log ++ [("send error: %v", err)]
              cancelCalls := s.cancelCalls + 1 })
      | none =>
          (.returned (), cachedMilestone.Release st2, { s with sends := s.sends ++ [payload] })

/-- The closure attached to the event (lines 85 to 87, and 113 to 115):
`wp.Submit(milestone)`. The handle is queued as it was received; the storage
is not touched. -/
def closure (milestone : CachedMilestone) (st : Storage) (s : Session) : Storage × Session :=
  (st, { s with queue := s.queue ++ [milestone] })

/-- Modelled from the spec: the confirmation event bus fires a milestone event
by invoking the attached callback with a retained handle (count +1), so that
what the callback queues is a retained handle whose ownership passes to the
worker that takes it, which must release it after use. The caller of the
handlers is not among the sources. -/
def MilestoneCaller (handler : CachedMilestone → Storage → Session → Storage × Session)
    (milestone : CachedMilestone) (st : Storage) (s : Session) : Storage × Session :=
  let (retained, st1) := milestone.Retain st
  handler retained st1 s

/-- One event from the bus to the end of its handling: the bus invokes the
closure with a retained handle, the closure queues it, the worker takes the
oldest queued task and handles it. -/
def deliver (lib : Lib) (srv : Stream) (milestone : CachedMilestone)
    (st : Storage) (s : Session) : Outcome Unit × Storage × Session :=
  match MilestoneCaller closure milestone st s with
  | (st1, s1) =>
    match s1.queue with
    | [] => (.returned (), st1, s1)
    | task :: rest => workerTask lib srv task st1 { s1 with queue := rest }

/-- How a listener call ends on a finite run of events: it returns an error
value, it is still waiting on `ctx.Done()`, or a worker panicked. -/
inductive ListenEnd
  | returned (err : Option GoError)
  | waiting
  | crashed
  deriving DecidableEq, Repr

/-- The body of a listener between `Attach` and `return ctx.Err()`: the events
are delivered in order while the context is live; once it is done the closure
is detached, the pool stopped and `ctx.Err()` returned. -/
def listen (lib : Lib) (srv : Stream) :
    List CachedMilestone → Storage → Session → ListenEnd × Storage × Session
  | [], st, s => (if s.done then .returned s.ctxErr else .waiting, st, s)
  | ev :: rest, st, s =>
    if s.done then (.returned s.ctxErr, st, s)
    else
      match deliver lib srv ev st s with
      | (.panicked, st1, s1) => (.crashed, st1, s1)
      | (.returned _, st1, s1) => listen lib srv rest st1 s1

/-- The events of `deps.Tangle.Events` a listener attaches to, each as the
handles the publisher fires it with while the closure is attached. -/
structure TangleEvents where
  LatestMilestoneChanged : List CachedMilestone
  ConfirmedMilestoneChanged : List CachedMilestone

/-- The method `INXServer.ListenToLatestMilestone` (lines 68 to 94). -/
def ListenToLatestMilestone (lib : Lib) (events : TangleEvents) (srv : Stream) (st : Storage) :
    ListenEnd × Storage × Session :=
  listen lib srv events.LatestMilestoneChanged st Session.fresh

/-- The method `INXServer.ListenToConfirmedMilestone` (lines 96 to 122). -/
def ListenToConfirmedMilestone (lib : Lib) (events : TangleEvents) (srv : Stream)
    (st : Storage) : ListenEnd × Storage × Session :=
  listen lib srv events.ConfirmedMilestoneChanged st Session.fresh

/-! ## `ComputeWhiteFlag` -/

/-- The request `inx.WhiteFlagRequest` after its getters were applied. -/
structure WhiteFlagRequest where
  MilestoneIndex : Nat
  MilestoneTimestamp : Nat
  Parents : List (List Nat)
  PreviousMilestoneId : List Nat
  deriving DecidableEq, Repr

/-- The type `whiteflag.WhiteFlagMutations`, the two roots only. -/
structure WhiteFlagMutations where
  ConfirmedMerkleRoot : List Nat
  AppliedMerkleRoot : List Nat
  deriving DecidableEq, Repr

/-- The type `inx.WhiteFlagResponse`. -/
structure WhiteFlagResponse where
  MilestoneConfirmedMerkleRoot : List Nat
  MilestoneAppliedMerkleRoot : List Nat
  deriving DecidableEq, Repr

/-- The white-flag engine, `deps.Tangle.CheckSolidityAndComputeWhiteFlagMutations`,
as the pair `(mutations, err)` it returns for a request. -/
abbrev Engine := WhiteFlagRequest → Option WhiteFlagMutations × Option BaseError

/-- The method `INXServer.ComputeWhiteFlag` (lines 124 to 151). -/
def ComputeWhiteFlag (engine : Engine) (req : WhiteFlagRequest) :
    Outcome (Option WhiteFlagResponse × Option GoError) :=
  match engine req with
  | (_, some err) =>
      if errorsIs err .ErrNodeNotSynced then
        .returned (none, some (.status
          ⟨.Unavailable, "failed to compute white flag mutations: %s", [.err err]⟩))
      else if errorsIs err .ErrParentsNotGiven then
        .returned (none, some (.status
          ⟨.InvalidArgument, "failed to compute white flag mutations: %s", [.err err]⟩))
      else if errorsIs err .ErrParentsNotSolid then
        .returned (none, some (.status
          ⟨.Unavailable, "failed to compute white flag mutations: %s", [.err err]⟩))
      else if errorsIs err .ErrOperationAborted then
        .returned (none, some (.status
          ⟨.Unavailable, "failed to compute white flag mutations: %s", [.err err]⟩))
      else
        .returned (none, some (.status
          ⟨.Internal, "failed to compute white flag mutations: %s", [.err err]⟩))
  | (none, none) => .panicked
  | (some mutations, none) =>
      .returned
        (some
          { MilestoneConfirmedMerkleRoot := mutations.ConfirmedMerkleRoot
            MilestoneAppliedMerkleRoot := mutations.AppliedMerkleRoot },
          none)

/-- The status code of a returned error, when it is a gRPC status. -/
def GoError.code : GoError → Option Code
  | .status s => some s.code
  | .base _ => none

/-! ## `getBalances` (plugins/webapi/balances.go) -/

/-- The type `ErrorReturn` of the web API. -/
structure ErrorReturn where
  Error : String
  deriving DecidableEq, Repr

/-- The decoded request `GetBalances`. -/
structure GetBalances where
  Addresses : List String
  deriving DecidableEq, Repr

/-- The type `GetBalancesReturn`. -/
structure GetBalancesReturn where
  Balances : List String
  References : List String
  MilestoneIndex : Nat
  deriving DecidableEq, Repr

/-- A value handed to `c.JSON`. -/
inductive JSONBody
  | error (e : ErrorReturn)
  | result (r : GetBalancesReturn)
  deriving DecidableEq, Repr

/-- What `getBalances` does to the outside: a response written with
`c.JSON(status, body)`, the ledger lock taken and given back, the milestone
bundle released. -/
inductive WebEvent
  | JSON (status : Nat) (body : JSONBody)
  | ReadLockLedger
  | ReadUnlockLedger
  | ReleaseBundle
  deriving DecidableEq, Repr

/-- The milestone bundle read at the end of `getBalances`. -/
structure Bundle where
  MilestoneIndex : Nat
  MilestoneHash : String
  deriving DecidableEq, Repr

/-- The state of package `tangle` the handler reads. `SolidMilestone` is
`GetMilestoneOrNil(GetSolidMilestoneIndex())`; the balance lookup returns
`(balance, _, err)`. -/
structure Tangle where
  IsNodeSynced : Bool
  SolidMilestone : Option Bundle
  GetBalanceForAddressWithoutLocking : String → Nat × Option BaseError

/-- The constants of `net/http` used by the handler. -/
def StatusOK : Nat := 200

/-- The constant `http.StatusBadRequest`. -/
def StatusBadRequest : Nat := 400

/-- The constant `http.StatusInternalServerError`. -/
def StatusInternalServerError : Nat := 500

/-- The second loop of `getBalances` (lines 63 to 74): `none` when a lookup
failed, the balances otherwise; `addr[:81]` panics on a shorter string. -/
def balancesLoop (tangle : Tangle) : List String → List String → Outcome (Option (List String))
  | [], acc => .returned (some acc)
  | addr :: rest, acc =>
    if addr.utf8ByteSize < 81 then .panicked
    else
      match tangle.GetBalanceForAddressWithoutLocking (addr.extract 0 ⟨81⟩) with
      | (_, some _) => .returned none
      | (balance, none) => balancesLoop tangle rest (acc ++ [toString balance])

/-- The handler `getBalances` (lines 19 to 80). The argument is the result of
`mapstructure.Decode(i, query)`: its error and the query it filled.
`ValidAddress` is `address.ValidAddress` (nil for a valid address). -/
def getBalances (ValidAddress : String → Option BaseError) (tangle : Tangle)
    (decoded : Option BaseError × GetBalances) : Outcome Unit × List WebEvent :=
  let query := decoded.2
  match decoded.1 with
  | some _ => (.returned (), [.JSON StatusInternalServerError (.error ⟨"Internal error"⟩)])
  | none =>
    let t1 : List WebEvent :=
      if query.Addresses.length = 0 then
        [.JSON StatusBadRequest (.error ⟨"No addresses provided"⟩)]
      else []
    match query.Addresses.find? (fun addr => (ValidAddress addr).isSome) with
    | some addr =>
        (.returned (), t1 ++ [.JSON StatusBadRequest (.error ⟨"Invalid address: " ++ addr⟩)])
    | none =>
      -- tangle.ReadLockLedger(); defer tangle.ReadUnlockLedger()
      let t2 := t1 ++ [.ReadLockLedger]
      if !tangle.IsNodeSynced then
        (.returned (),
          t2 ++ [.JSON StatusBadRequest (.error ⟨"Node not synced"⟩), .ReadUnlockLedger])
      else
        match tangle.SolidMilestone with
        | none =>
            (.returned (),
              t2 ++ [.JSON StatusInternalServerError
                        (.error ⟨"Ledger state invalid - Milestone not found"⟩),
                     .ReadUnlockLedger])
        | some cachedLatestSolidMs =>
          -- defer cachedLatestSolidMs.Release(true)
          match balancesLoop tangle query.Addresses [] with
          | .panicked => (.panicked, t2 ++ [.ReleaseBundle, .ReadUnlockLedger])
          | .returned none =>
              (.returned (),
                t2 ++ [.JSON StatusInternalServerError (.error ⟨"Ledger state invalid"⟩),
                       .ReleaseBundle, .ReadUnlockLedger])
          | .returned (some balances) =>
              (.returned (),
                t2 ++ [.JSON StatusOK
                        (.result
                          { Balances := balances
                            MilestoneIndex := uint32OfNat cachedLatestSolidMs.MilestoneIndex
                            References := [cachedLatestSolidMs.MilestoneHash] }),
                       .ReleaseBundle, .ReadUnlockLedger])

/-- The responses among the events of a run. -/
def jsonResponses : List WebEvent → List (Nat × JSONBody)
  | [] => []
  | .JSON status body :: rest => (status, body) :: jsonResponses rest
  | _ :: rest => jsonResponses rest

/-! ## Reading a run -/

/-- The events a run appended to the trace of `before`. -/
def newEvents (before after : Storage) : List Event :=
  after.trace.drop before.trace.length

/-- Whether a result pair is an error with the given status code. -/
def isStatus (r : Outcome MilestoneResult) (c : Code) : Bool :=
  match r with
  | .returned (_, some e) => decide (e.code = some c)
  | _ => false

/-- The result of the call `milestoneForCachedMilestone(cachedMilestone.Retain())`
made by the worker on a task. -/
def materialized (lib : Lib) (cachedMilestone : CachedMilestone) (st : Storage) :
    Outcome MilestoneResult :=
  (milestoneForCachedMilestone lib (cachedMilestone.Retain st).1 (cachedMilestone.Retain st).2).1

/-- The error the worker's handling of a task runs into, if any, in a storage
and with the given `Send` calls already made: the error the materialization
returned, or else the error `Send` returned for the value it produced. -/
def workerError (lib : Lib) (srv : Stream) (task : CachedMilestone) (st : Storage)
    (sends : List (Option InxMilestone)) : Option GoError :=
  match materialized lib task st with
  | .returned (_, some err) => some err
  | .returned (payload, none) => srv.Send sends payload
  | .panicked => none

/-- A library whose two methods read the receiver: a nil receiver is a nil
pointer dereference, a payload is hashed to, and serialized as, its content. -/
def derefLib : Lib :=
  { ID := fun p =>
      match p with
      | none => .panics
      | some q => .value q.content
    Serialize := fun p _ =>
      match p with
      | none => .panics
      | some q => .value q.content }

/-- Milestone 1, carried by message 7. -/
def ms1 : Milestone := { Index := 1, MessageID := 7, Timestamp := 1650000000 }

/-- A handle on milestone 1. -/
def cachedMs1 : CachedMilestone := { key := 1, obj := ms1 }

/-- A store holding milestone 1 but not its carrier message 7. -/
def orphanStorage : Storage :=
  { milestones := fun i => if i = 1 then some ms1 else none
    messages := fun _ => none
    milestoneRefs := fun i => if i = 1 then 1 else 0
    messageRefs := fun _ => 0
    trace := [] }

/-- A store holding milestone 1 and a message 7 without a milestone payload. -/
def bareStorage : Storage :=
  { orphanStorage with messages := fun i => if i = 7 then some ⟨none⟩ else none }

/-- A stream on which every `Send` succeeds. -/
def quietStream : Stream := { Send := fun _ _ => none }

/-- Both events fire once with a handle on milestone 1. -/
def oneEvent : TangleEvents :=
  { LatestMilestoneChanged := [cachedMs1], ConfirmedMilestoneChanged := [cachedMs1] }

/-- A white-flag request. -/
def sampleRequest : WhiteFlagRequest :=
  { MilestoneIndex := 2, MilestoneTimestamp := 1650000010, Parents := [], PreviousMilestoneId := [] }

/-- An engine error matching two sentinels: it wraps an error that unwraps to
`ErrParentsNotSolid` and to `ErrParentsNotGiven`. -/
def sampleError : BaseError :=
  .wrap "white flag" (.join .ErrParentsNotSolid .ErrParentsNotGiven)

/-- An engine that fails every request with `sampleError`. -/
def failingEngine : Engine := fun _ => (none, some sampleError)

/-- A ledger that is synced and has a solid milestone. -/
def syncedTangle : Tangle :=
  { IsNodeSynced := true
    SolidMilestone := some { MilestoneIndex := 5, MilestoneHash := "MILESTONE" }
    GetBalanceForAddressWithoutLocking := fun _ => (0, none) }

/-! ## Theorems -/

/-- C1, as stated, fails: the store holds milestone 1, its carrier message is
missing, and `ReadMilestone 1` returns NotFound. -/
theorem ReadMilestone_notFound_counterexample :
    ¬ (isStatus (ReadMilestone derefLib 1 orphanStorage).1 .NotFound = true
        ↔ orphanStorage.milestones 1 = none) := by
  decide

/-- C1, amended: `ReadMilestone i` returns a NotFound error if and only if the
store holds no milestone at index `i` or holds one whose carrier message is
not in the store. -/
theorem ReadMilestone_notFound_iff (lib : Lib) (i : Nat) (st : Storage) :
    isStatus (ReadMilestone lib i st).1 .NotFound = true
      ↔ (st.milestones i = none
          ∨ ∃ m, st.milestones i = some m ∧ st.messages m.MessageID = none) := by
  unfold ReadMilestone milestoneForIndex
  simp only [Storage.CachedMilestoneOrNil]
  cases hm : st.milestones i with
  | none => simp [isStatus, GoError.code]
  | some m =>
    simp only [CachedMilestone.Retain, milestoneForCachedMilestone, CachedMilestone.Milestone,
      Storage.CachedMessageOrNil]
    cases hmsg : st.messages m.MessageID with
    | none => simp [hmsg, isStatus, GoError.code]
    | some msg =>
      cases hid : lib.ID msg.Milestone with
      | panics => simp [hmsg, hid, isStatus, CachedMessage.Message]
      | failure e => simp [hmsg, hid, isStatus, GoError.code, CachedMessage.Message]
      | value v =>
        cases hs : lib.Serialize msg.Milestone .NoValidation <;>
          simp [hmsg, hid, hs, isStatus, GoError.code, CachedMessage.Message]

/-- C2: when the engine returns an error `e`, `ComputeWhiteFlag` returns no
response and a status; its code is Unavailable when `e` is or wraps
`ErrNodeNotSynced`; otherwise InvalidArgument when it is or wraps
`ErrParentsNotGiven`; otherwise Unavailable when it is or wraps
`ErrParentsNotSolid`; otherwise Unavailable when it is or wraps
`ErrOperationAborted`; and Internal when it matches none of the four. -/
theorem ComputeWhiteFlag_error_code (engine : Engine) (req : WhiteFlagRequest)
    (m : Option WhiteFlagMutations) (e : BaseError) (h : engine req = (m, some e)) :
    ∃ s : Status,
      ComputeWhiteFlag engine req = .returned (none, some (.status s))
      ∧ (errorsIs e .ErrNodeNotSynced = true → s.code = .Unavailable)
      ∧ (errorsIs e .ErrNodeNotSynced = false → errorsIs e .ErrParentsNotGiven = true →
          s.code = .InvalidArgument)
      ∧ (errorsIs e .ErrNodeNotSynced = false → errorsIs e .ErrParentsNotGiven = false →
          errorsIs e .ErrParentsNotSolid = true → s.code = .Unavailable)
      ∧ (errorsIs e .ErrNodeNotSynced = false → errorsIs e .ErrParentsNotGiven = false →
          errorsIs e .ErrParentsNotSolid = false → errorsIs e .ErrOperationAborted = true →
          s.code = .Unavailable)
      ∧ (errorsIs e .ErrNodeNotSynced = false → errorsIs e .ErrParentsNotGiven = false →
          errorsIs e .ErrParentsNotSolid = false → errorsIs e .ErrOperationAborted = false →
          s.code = .Internal) := by
  unfold ComputeWhiteFlag
  rw [h]
  cases h1 : errorsIs e .ErrNodeNotSynced <;> cases h2 : errorsIs e .ErrParentsNotGiven <;>
    cases h3 : errorsIs e .ErrParentsNotSolid <;> cases h4 : errorsIs e .ErrOperationAborted <;>
    simp [h1, h2, h3, h4]

/-- C2 at an engine error that matches both `ErrParentsNotSolid` and
`ErrParentsNotGiven`: the earlier case, InvalidArgument, decides. -/
theorem ComputeWhiteFlag_error_code_witness :
    failingEngine sampleRequest = (none, some sampleError)
    ∧ errorsIs sampleError .ErrParentsNotSolid = true
    ∧ ∃ s : Status,
        ComputeWhiteFlag failingEngine sampleRequest = .returned (none, some (.status s))
        ∧ s.code = .InvalidArgument := by
  refine ⟨rfl, by decide, ?_⟩
  obtain ⟨s, hs, -, h2, -⟩ :=
    ComputeWhiteFlag_error_code failingEngine sampleRequest none sampleError rfl
  exact ⟨s, hs, h2 (by decide) (by decide)⟩

/-- C3 fails on the code. For a handle whose carrier message is stored without
a milestone payload, whatever the library does, `ID` is called on the nil
payload and the status "does not contain a milestone" is never returned; with
a library that reads its receiver the call panics. -/
theorem milestoneForCachedMilestone_nil_payload_reaches_ID :
    bareStorage.messages cachedMs1.obj.MessageID = some ⟨none⟩
    ∧ (∀ lib : Lib,
        Event.payloadID none
          ∈ newEvents bareStorage (milestoneForCachedMilestone lib cachedMs1 bareStorage).2)
    ∧ (∀ (lib : Lib) (s : Status),
        (milestoneForCachedMilestone lib cachedMs1 bareStorage).1
            = .returned (none, some (.status s)) →
          s.format ≠ "milestone message for %d does not contain a milestone")
    ∧ (milestoneForCachedMilestone derefLib cachedMs1 bareStorage).1 = .panicked := by
  refine ⟨rfl, ?_, ?_, rfl⟩
  · intro lib
    unfold milestoneForCachedMilestone
    simp only [CachedMilestone.Milestone, Storage.CachedMessageOrNil]
    have hmsg : bareStorage.messages cachedMs1.obj.MessageID = some ⟨none⟩ := rfl
    rw [hmsg]
    cases hid : lib.ID none with
    | panics =>
      simp [hid, newEvents, CachedMilestone.Release, CachedMessage.Release, Storage.record,
        CachedMessage.Message]
    | failure e =>
      simp [hid, newEvents, CachedMilestone.Release, CachedMessage.Release, Storage.record,
        CachedMessage.Message]
    | value v =>
      cases hs : lib.Serialize none .NoValidation <;>
        simp [hid, hs, newEvents, CachedMilestone.Release, CachedMessage.Release,
          Storage.record, CachedMessage.Message]
  · intro lib s
    unfold milestoneForCachedMilestone
    simp only [CachedMilestone.Milestone, Storage.CachedMessageOrNil]
    have hmsg : bareStorage.messages cachedMs1.obj.MessageID = some ⟨none⟩ := rfl
    rw [hmsg]
    cases hid : lib.ID none with
    | panics => simp [hid, CachedMessage.Message]
    | failure e =>
      simp only [hid, CachedMessage.Message]
      intro h
      simp at h
      rw [← h]
      show "error computing milestone ID: %s" ≠ _
      decide
    | value v =>
      cases hs : lib.Serialize none .NoValidation with
      | panics => simp [hid, hs, CachedMessage.Message]
      | value b => simp [hid, hs, CachedMessage.Message]
      | failure e =>
        simp only [hid, hs, CachedMessage.Message]
        intro h
        simp at h
        rw [← h]
        show "error serializing milestone payload: %s" ≠ _
        decide

/-- C4: on every exit of `milestoneForCachedMilestone`, a panic included, the
handle passed in is released exactly once (its count ends one lower, every
other milestone count is untouched), and every message count ends as it began:
the carrier message is acquired once and released once when it is found, and
no message is touched when it is not. -/
theorem milestoneForCachedMilestone_releases (lib : Lib) (ms : CachedMilestone)
    (st : Storage) :
    (milestoneForCachedMilestone lib ms st).2.milestoneRefs
        = Function.update st.milestoneRefs ms.key (st.milestoneRefs ms.key - 1)
    ∧ (newEvents st (milestoneForCachedMilestone lib ms st).2).count
        (.milestoneRelease ms.key) = 1
    ∧ (milestoneForCachedMilestone lib ms st).2.messageRefs = st.messageRefs
    ∧ ((st.messages ms.obj.MessageID).isSome = true →
        (newEvents st (milestoneForCachedMilestone lib ms st).2).count
            (.messageAcquire ms.obj.MessageID) = 1
        ∧ (newEvents st (milestoneForCachedMilestone lib ms st).2).count
            (.messageRelease ms.obj.MessageID) = 1)
    ∧ (st.messages ms.obj.MessageID = none →
        newEvents st (milestoneForCachedMilestone lib ms st).2
          = [.milestoneRelease ms.key]) := by
  unfold milestoneForCachedMilestone
  simp only [CachedMilestone.Milestone, Storage.CachedMessageOrNil]
  cases hm : st.messages ms.obj.MessageID with
  | none => simp [newEvents, CachedMilestone.Release]
  | some msg =>
    cases hid : lib.ID msg.Milestone with
    | panics =>
      simp [hid, newEvents, CachedMilestone.Release, CachedMessage.Release, Storage.record,
        CachedMessage.Message]
    | failure e =>
      simp [hid, newEvents, CachedMilestone.Release, CachedMessage.Release, Storage.record,
        CachedMessage.Message]
    | value v =>
      cases hs : lib.Serialize msg.Milestone .NoValidation <;>
        simp [hid, hs, newEvents, CachedMilestone.Release, CachedMessage.Release,
          Storage.record, CachedMessage.Message]

/-- C5 fails on the code at a carrier message without a milestone payload:
with a library that reads its receiver the function panics, so it returns
neither a milestone nor an error. -/
theorem milestoneForCachedMilestone_nil_payload_returns_nothing :
    bareStorage.messages cachedMs1.obj.MessageID = some ⟨none⟩
    ∧ ∀ r : MilestoneResult,
        (milestoneForCachedMilestone derefLib cachedMs1 bareStorage).1 ≠ .returned r := by
  refine ⟨rfl, ?_⟩
  intro r h
  have hp : (milestoneForCachedMilestone derefLib cachedMs1 bareStorage).1 = .panicked := rfl
  rw [hp] at h
  cases h

/-- Whenever `milestoneForCachedMilestone` returns, it returns a milestone and
no error or no milestone and an error; a milestone is returned exactly when
the carrier message is found and both library calls on its payload pointer
give a value, and it is built from those values, the index and the low 32
bits of the timestamp. -/
theorem milestoneForCachedMilestone_returned (lib : Lib) (ms : CachedMilestone)
    (st : Storage) (r : MilestoneResult)
    (h : (milestoneForCachedMilestone lib ms st).1 = .returned r) :
    ((r.1.isSome = true ∧ r.2 = none) ∨ (r.1 = none ∧ r.2.isSome = true))
    ∧ ∀ out : InxMilestone, r.1 = some out ↔
        ∃ msg id bytes, st.messages ms.obj.MessageID = some msg
          ∧ lib.ID msg.Milestone = .value id
          ∧ lib.Serialize msg.Milestone .NoValidation = .value bytes
          ∧ out = { MilestoneInfo :=
                      { MilestoneId := id
                        MilestoneIndex := ms.obj.Index % 2 ^ 32
                        MilestoneTimestamp := (ms.obj.Timestamp % 2 ^ 32).toNat }
                    Milestone := { Data := bytes } } := by
  revert h
  unfold milestoneForCachedMilestone
  simp only [CachedMilestone.Milestone, Storage.CachedMessageOrNil]
  cases hm : st.messages ms.obj.MessageID with
  | none =>
    intro h
    simp at h
    subst h
    simp
  | some msg =>
    cases hid : lib.ID msg.Milestone with
    | panics => simp [hid, CachedMessage.Message]
    | failure e =>
      intro h
      simp [hid, CachedMessage.Message] at h
      subst h
      simp [hid]
    | value v =>
      cases hs : lib.Serialize msg.Milestone .NoValidation with
      | panics => simp [hid, hs, CachedMessage.Message]
      | failure e =>
        intro h
        simp [hid, hs, CachedMessage.Message] at h
        subst h
        simp [hid, hs]
      | value b =>
        intro h
        simp [hid, hs, CachedMessage.Message] at h
        subst h
        simp [hid, hs, NewMilestoneInfo, uint32OfNat, uint32OfInt, eq_comm]

/-- The function `milestoneForCachedMilestone` returns whenever the carrier
message is missing or neither library call on its payload pointer panics. -/
theorem milestoneForCachedMilestone_returns (lib : Lib) (ms : CachedMilestone)
    (st : Storage)
    (h : ∀ msg, st.messages ms.obj.MessageID = some msg →
      lib.ID msg.Milestone ≠ .panics ∧ lib.Serialize msg.Milestone .NoValidation ≠ .panics) :
    ∃ r, (milestoneForCachedMilestone lib ms st).1 = .returned r := by
  unfold milestoneForCachedMilestone
  simp only [CachedMilestone.Milestone, Storage.CachedMessageOrNil]
  cases hm : st.messages ms.obj.MessageID with
  | none => simp
  | some msg =>
    obtain ⟨h1, h2⟩ := h msg hm
    cases hid : lib.ID msg.Milestone with
    | panics => exact absurd hid h1
    | failure e => simp [hid, CachedMessage.Message]
    | value v =>
      cases hs : lib.Serialize msg.Milestone .NoValidation with
      | panics => exact absurd hs h2
      | failure e => simp [hid, hs, CachedMessage.Message]
      | value b => simp [hid, hs, CachedMessage.Message]

/-- C9: `milestoneForIndex` leaves the reference count of every milestone and
of every message as it found it, on every exit, a panic included. When the
milestone is stored, the run acquires it once, retains it once and releases it
twice; when it is not, the run touches nothing. -/
theorem milestoneForIndex_refs_unchanged (lib : Lib) (i : Nat) (st : Storage) :
    (milestoneForIndex lib i st).2.milestoneRefs = st.milestoneRefs
    ∧ (milestoneForIndex lib i st).2.messageRefs = st.messageRefs
    ∧ ((st.milestones i).isSome = true →
        (newEvents st (milestoneForIndex lib i st).2).count (.milestoneAcquire i) = 1
        ∧ (newEvents st (milestoneForIndex lib i st).2).count (.milestoneRetain i) = 1
        ∧ (newEvents st (milestoneForIndex lib i st).2).count (.milestoneRelease i) = 2)
    ∧ (st.milestones i = none → newEvents st (milestoneForIndex lib i st).2 = []) := by
  unfold milestoneForIndex
  simp only [Storage.CachedMilestoneOrNil]
  cases hm : st.milestones i with
  | none => simp [newEvents]
  | some m =>
    simp only [CachedMilestone.Retain, milestoneForCachedMilestone, CachedMilestone.Milestone,
      Storage.CachedMessageOrNil]
    cases hmsg : st.messages m.MessageID with
    | none => simp [hmsg, newEvents, CachedMilestone.Release]
    | some msg =>
      cases hid : lib.ID msg.Milestone with
      | panics =>
        simp [hmsg, hid, newEvents, CachedMilestone.Release, CachedMessage.Release,
          Storage.record, CachedMessage.Message]
      | failure e =>
        simp [hmsg, hid, newEvents, CachedMilestone.Release, CachedMessage.Release,
          Storage.record, CachedMessage.Message]
      | value v =>
        cases hs : lib.Serialize msg.Milestone .NoValidation <;>
          simp [hmsg, hid, hs, newEvents, CachedMilestone.Release, CachedMessage.Release,
            Storage.record, CachedMessage.Message]

/-- What a worker task does to the session: it leaves the queue alone; when its
handling runs into an error it returns after logging one line that prints that
very error and calling `cancel` once; when it runs into none it logs nothing
and does not call `cancel`. -/
theorem workerTask_session (lib : Lib) (srv : Stream) (task : CachedMilestone)
    (st : Storage) (s : Session) :
    (workerTask lib srv task st s).2.2.queue = s.queue
    ∧ (∀ err, workerError lib srv task st s.sends = some err →
        (workerTask lib srv task st s).1 = .returned ()
        ∧ (workerTask lib srv task st s).2.2.cancelCalls = s.cancelCalls + 1
        ∧ ∃ fmt, (workerTask lib srv task st s).2.2.log = s.log ++ [(fmt, err)])
    ∧ (workerError lib srv task st s.sends = none →
        (workerTask lib srv task st s).2.2.cancelCalls = s.cancelCalls
        ∧ (workerTask lib srv task st s).2.2.log = s.log) := by
  unfold workerTask workerError materialized
  simp only [CachedMilestone.Retain]
  generalize milestoneForCachedMilestone lib task _ = R
  obtain ⟨r, st2⟩ := R
  cases r with
  | panicked => simp
  | returned val =>
    obtain ⟨p, e⟩ := val
    cases e with
    | some err => simp
    | none =>
      cases hs : srv.Send s.sends p with
      | none => simp [hs]
      | some err => simp [hs]

/-- With an empty pool, delivering an event is the worker's handling of the
handle the bus retained. -/
theorem deliver_eq (lib : Lib) (srv : Stream) (ev : CachedMilestone)
    (st : Storage) (s : Session) (h : s.queue = []) :
    deliver lib srv ev st s = workerTask lib srv ev (ev.Retain st).2 s := by
  have hs : { s with queue := [] } = s := by
    cases s
    simp_all
  simp [deliver, MilestoneCaller, closure, CachedMilestone.Retain, h, hs]

/-- Once the context is done the listener body returns `context.Canceled`
without delivering anything more. -/
theorem listen_done (lib : Lib) (srv : Stream) (evs : List CachedMilestone)
    (st : Storage) (s : Session) (h : s.done = true) :
    listen lib srv evs st s = (.returned (some (.base .Canceled)), st, s) := by
  cases evs <;> simp [listen, h, Session.ctxErr]

/-- The storage a worker task leaves does not depend on the stream or the
session: it is the storage left by the materialization of the retained handle,
followed by the deferred release. -/
theorem workerTask_storage (lib : Lib) (srv : Stream) (ms : CachedMilestone)
    (st : Storage) (s : Session) :
    (workerTask lib srv ms st s).2.1
      = ms.Release (milestoneForCachedMilestone lib (ms.Retain st).1 (ms.Retain st).2).2 := by
  unfold workerTask
  simp only [CachedMilestone.Retain]
  generalize milestoneForCachedMilestone lib ms _ = R
  obtain ⟨r, st2⟩ := R
  cases r with
  | panicked => rfl
  | returned val =>
    obtain ⟨p, e⟩ := val
    cases e with
    | some err => rfl
    | none =>
      cases hs : srv.Send s.sends p with
      | none => simp [hs]
      | some err => simp [hs]

/-- On every path, a panic included, a worker task takes the count of its
milestone down by one, retaining it once and releasing it twice, and leaves
every other milestone count and every message count as it found them. -/
theorem workerTask_refs (lib : Lib) (srv : Stream) (ms : CachedMilestone)
    (st : Storage) (s : Session) :
    (workerTask lib srv ms st s).2.1.milestoneRefs
        = Function.update st.milestoneRefs ms.key (st.milestoneRefs ms.key - 1)
    ∧ (workerTask lib srv ms st s).2.1.messageRefs = st.messageRefs
    ∧ (newEvents st (workerTask lib srv ms st s).2.1).count (.milestoneRetain ms.key) = 1
    ∧ (newEvents st (workerTask lib srv ms st s).2.1).count (.milestoneRelease ms.key) = 2 := by
  refine ⟨?_, ?_, ?_, ?_⟩ <;>
  · rw [workerTask_storage]
    unfold milestoneForCachedMilestone
    simp only [CachedMilestone.Milestone, Storage.CachedMessageOrNil, CachedMilestone.Retain]
    cases hm : st.messages ms.obj.MessageID with
    | none => simp [hm, newEvents, CachedMilestone.Release]
    | some msg =>
      cases hid : lib.ID msg.Milestone with
      | panics =>
        simp [hm, hid, newEvents, CachedMilestone.Release, CachedMessage.Release,
          Storage.record, CachedMessage.Message]
      | failure e =>
        simp [hm, hid, newEvents, CachedMilestone.Release, CachedMessage.Release,
          Storage.record, CachedMessage.Message]
      | value v =>
        cases hs : lib.Serialize msg.Milestone .NoValidation <;>
          simp [hm, hid, hs, newEvents, CachedMilestone.Release, CachedMessage.Release,
            Storage.record, CachedMessage.Message]

/-- Delivering one event to an empty pool leaves every milestone count and
every message count as it found them. -/
theorem deliver_refs (lib : Lib) (srv : Stream) (ev : CachedMilestone)
    (st : Storage) (s : Session) (h : s.queue = []) :
    (deliver lib srv ev st s).2.1.milestoneRefs = st.milestoneRefs
    ∧ (deliver lib srv ev st s).2.1.messageRefs = st.messageRefs
    ∧ (deliver lib srv ev st s).2.2.queue = [] := by
  rw [deliver_eq lib srv ev st s h]
  obtain ⟨h1, h2, -, -⟩ := workerTask_refs lib srv ev (ev.Retain st).2 s
  refine ⟨?_, ?_, ?_⟩
  · rw [h1]
    simp [CachedMilestone.Retain]
  · rw [h2]
    simp [CachedMilestone.Retain]
  · rw [(workerTask_session lib srv ev (ev.Retain st).2 s).1, h]

/-- A listener body started with an empty pool leaves every milestone count and
every message count as it found them, however it ends. -/
theorem listen_refs (lib : Lib) (srv : Stream) :
    ∀ (evs : List CachedMilestone) (st : Storage) (s : Session), s.queue = [] →
      (listen lib srv evs st s).2.1.milestoneRefs = st.milestoneRefs
      ∧ (listen lib srv evs st s).2.1.messageRefs = st.messageRefs := by
  intro evs
  induction evs with
  | nil =>
    intro st s _
    simp [listen]
  | cons ev rest ih =>
    intro st s hq
    cases hd : s.done with
    | true => simp [listen_done lib srv (ev :: rest) st s hd]
    | false =>
      have hstep : listen lib srv (ev :: rest) st s
          = match deliver lib srv ev st s with
            | (.panicked, st1, s1) => (.crashed, st1, s1)
            | (.returned _, st1, s1) => listen lib srv rest st1 s1 := by
        rw [listen]
        simp [hd]
      rw [hstep]
      obtain ⟨h1, h2, h3⟩ := deliver_refs lib srv ev st s hq
      generalize deliver lib srv ev st s = D at h1 h2 h3
      obtain ⟨r, st1, s1⟩ := D
      simp only at h1 h2 h3
      cases r with
      | panicked => exact ⟨h1, h2⟩
      | returned u =>
        obtain ⟨i1, i2⟩ := ih st1 s1 h3
        exact ⟨i1.trans h1, i2.trans h2⟩

/-- C7: in both listeners, for every event the bus delivers, the closure is
invoked with a retained handle (count +1) and queues that handle, adding no
retain or release of its own; the worker's handling of the queued handle
retains once and releases twice on every path (success, materialization
error, send error, and a panic as well), so that afterwards the milestone's
count, every other milestone count and every message count equal their values
before the event was delivered: two retains against two releases, no handle
left outstanding and no reference of the publisher consumed. The same holds
over a whole run of either listener. -/
theorem listener_refcount_balanced (lib : Lib) (srv : Stream) (ms : CachedMilestone)
    (st : Storage) (s w : Session) (events : TangleEvents) :
    (MilestoneCaller closure ms st s).1.milestoneRefs
        = Function.update st.milestoneRefs ms.key (st.milestoneRefs ms.key + 1)
    ∧ newEvents st (MilestoneCaller closure ms st s).1 = [.milestoneRetain ms.key]
    ∧ (MilestoneCaller closure ms st s).2.queue = s.queue ++ [ms]
    ∧ (closure ms st s).1.milestoneRefs = st.milestoneRefs
    ∧ newEvents st (closure ms st s).1 = []
    ∧ (workerTask lib srv ms (MilestoneCaller closure ms st s).1 w).2.1.milestoneRefs
        = st.milestoneRefs
    ∧ (workerTask lib srv ms (MilestoneCaller closure ms st s).1 w).2.1.messageRefs
        = st.messageRefs
    ∧ (newEvents st (workerTask lib srv ms (MilestoneCaller closure ms st s).1 w).2.1).count
        (.milestoneRetain ms.key) = 2
    ∧ (newEvents st (workerTask lib srv ms (MilestoneCaller closure ms st s).1 w).2.1).count
        (.milestoneRelease ms.key) = 2
    ∧ (ListenToLatestMilestone lib events srv st).2.1.milestoneRefs = st.milestoneRefs
    ∧ (ListenToLatestMilestone lib events srv st).2.1.messageRefs = st.messageRefs
    ∧ (ListenToConfirmedMilestone lib events srv st).2.1.milestoneRefs = st.milestoneRefs
    ∧ (ListenToConfirmedMilestone lib events srv st).2.1.messageRefs = st.messageRefs := by
  have hcall : (MilestoneCaller closure ms st s).1 = (ms.Retain st).2 := rfl
  have hl := listen_refs lib srv events.LatestMilestoneChanged st Session.fresh rfl
  have hc := listen_refs lib srv events.ConfirmedMilestoneChanged st Session.fresh rfl
  refine ⟨by simp [hcall, CachedMilestone.Retain],
    by simp [hcall, CachedMilestone.Retain, newEvents], rfl, rfl,
    by simp [closure, newEvents], ?_, ?_, ?_, ?_, hl.1, hl.2, hc.1, hc.2⟩ <;>
  · rw [hcall, workerTask_storage]
    unfold milestoneForCachedMilestone
    simp only [CachedMilestone.Milestone, Storage.CachedMessageOrNil, CachedMilestone.Retain]
    cases hm : st.messages ms.obj.MessageID with
    | none => simp [hm, newEvents, CachedMilestone.Release]
    | some msg =>
      cases hid : lib.ID msg.Milestone with
      | panics =>
        simp [hm, hid, newEvents, CachedMilestone.Release, CachedMessage.Release,
          Storage.record, CachedMessage.Message]
      | failure e =>
        simp [hm, hid, newEvents, CachedMilestone.Release, CachedMessage.Release,
          Storage.record, CachedMessage.Message]
      | value v =>
        cases hs : lib.Serialize msg.Milestone .NoValidation <;>
          simp [hm, hid, hs, newEvents, CachedMilestone.Release, CachedMessage.Release,
            Storage.record, CachedMessage.Message]

/-- C8 fails on the code at a carrier message without a milestone payload (the
input of C3 and C5, the same dead guard): with a library that reads its
receiver the materialization fails by panicking, and the worker neither logs
nor calls `cancel`; the listener, in both variants, ends crashed with its
context never cancelled. -/
theorem workerTask_nil_payload_no_cancel :
    bareStorage.messages cachedMs1.obj.MessageID = some ⟨none⟩
    ∧ materialized derefLib cachedMs1 bareStorage = .panicked
    ∧ (workerTask derefLib quietStream cachedMs1 bareStorage Session.fresh).1 = .panicked
    ∧ (workerTask derefLib quietStream cachedMs1 bareStorage Session.fresh).2.2 = Session.fresh
    ∧ (ListenToLatestMilestone derefLib oneEvent quietStream bareStorage).1 = .crashed
    ∧ (ListenToLatestMilestone derefLib oneEvent quietStream bareStorage).2.2.cancelCalls = 0
    ∧ (ListenToConfirmedMilestone derefLib oneEvent quietStream bareStorage).1 = .crashed
    ∧ (ListenToConfirmedMilestone derefLib oneEvent quietStream bareStorage).2.2.cancelCalls
        = 0 := by
  decide

/-- Whenever the materialization returns, the worker's handling of the task
calls `cancel` (once) if and only if the materialization returned an error, or
it returned no error and `Send` returned one. When the materialization
returned an error, no `Send` is made; when it returned no error, exactly one
`Send` is made, of the value it returned, and if that succeeds `cancel` is
not called. A materialization that panics takes the task down with it:
nothing is sent, nothing is logged and `cancel` is not called. -/
theorem workerTask_cancels_iff (lib : Lib) (srv : Stream) (ms : CachedMilestone)
    (st : Storage) (s : Session) :
    ((workerTask lib srv ms st s).2.2.cancelCalls = s.cancelCalls + 1
        ↔ ((∃ p e, materialized lib ms st = .returned (p, some e))
            ∨ (∃ p e, materialized lib ms st = .returned (p, none)
                ∧ srv.Send s.sends p = some e)))
    ∧ ((workerTask lib srv ms st s).2.2.cancelCalls = s.cancelCalls
        ∨ (workerTask lib srv ms st s).2.2.cancelCalls = s.cancelCalls + 1)
    ∧ (∀ p e, materialized lib ms st = .returned (p, some e) →
        (workerTask lib srv ms st s).2.2.sends = s.sends)
    ∧ (∀ p, materialized lib ms st = .returned (p, none) →
        (workerTask lib srv ms st s).2.2.sends = s.sends ++ [p]
        ∧ (srv.Send s.sends p = none →
            (workerTask lib srv ms st s).2.2.cancelCalls = s.cancelCalls))
    ∧ (materialized lib ms st = .panicked →
        (workerTask lib srv ms st s).1 = .panicked
        ∧ (workerTask lib srv ms st s).2.2 = s) := by
  unfold workerTask materialized
  simp only [CachedMilestone.Retain]
  generalize milestoneForCachedMilestone lib ms _ = R
  obtain ⟨r, st2⟩ := R
  cases r with
  | panicked => simp
  | returned val =>
    obtain ⟨p, e⟩ := val
    cases e with
    | some err => simp
    | none =>
      cases hs : srv.Send s.sends p with
      | none => simp [hs]
      | some err => simp [hs]

/-- C10 fails on the code: for a decoded request with no addresses, whatever
the validator and the ledger, `getBalances` returns after writing two
responses, the first of them 400 "No addresses provided". -/
theorem getBalances_empty_writes_two (ValidAddress : String → Option BaseError)
    (tangle : Tangle) :
    (getBalances ValidAddress tangle (none, ⟨[]⟩)).1 = .returned ()
    ∧ (jsonResponses (getBalances ValidAddress tangle (none, ⟨[]⟩)).2).length = 2
    ∧ (jsonResponses (getBalances ValidAddress tangle (none, ⟨[]⟩)).2).head?
        = some (400, .error ⟨"No addresses provided"⟩) := by
  unfold getBalances
  cases hs : tangle.IsNodeSynced with
  | false => simp [hs, jsonResponses, StatusBadRequest]
  | true =>
    cases hm : tangle.SolidMilestone with
    | none => simp [hs, hm, jsonResponses, StatusBadRequest]
    | some b => simp [hs, hm, jsonResponses, StatusBadRequest, balancesLoop]

/-- With at least one address, or when decoding failed, `getBalances` writes at
most one response, and exactly one when it returns. -/
theorem getBalances_one_response (ValidAddress : String → Option BaseError)
    (tangle : Tangle) (err : Option BaseError) (query : GetBalances)
    (h : err.isSome = true ∨ query.Addresses ≠ []) :
    (jsonResponses (getBalances ValidAddress tangle (err, query)).2).length ≤ 1
    ∧ ((getBalances ValidAddress tangle (err, query)).1 = .returned () →
        (jsonResponses (getBalances ValidAddress tangle (err, query)).2).length = 1) := by
  unfold getBalances
  cases err with
  | some e => simp [jsonResponses]
  | none =>
    have hne : query.Addresses ≠ [] := by
      rcases h with h | h
      · simp at h
      · exact h
    have hlen : ¬ query.Addresses.length = 0 := by
      simpa [List.length_eq_zero] using hne
    simp only [hlen, if_false, List.nil_append]
    cases hf : query.Addresses.find? (fun addr => (ValidAddress addr).isSome) with
    | some a => simp [jsonResponses]
    | none =>
      cases hs : tangle.IsNodeSynced with
      | false => simp [hs, jsonResponses]
      | true =>
        cases hm : tangle.SolidMilestone with
        | none => simp [hs, hm, jsonResponses]
        | some b =>
          cases hb : balancesLoop tangle query.Addresses [] with
          | panicked => simp [hs, hm, hb, jsonResponses]
          | returned r =>
            cases r <;> simp [hs, hm, hb, jsonResponses]

end Hornet
